import Mathlib

/-!
Verification of the physics/collision core of the hexagon-bounce simulation.

The embedding mirrors the source modules:
  * vector algebra and ball physics (`src/lib/physics.ts`),
  * hexagon geometry and collision detection (`src/lib/geometry.ts`),
  * the per-tick update pipeline of the component (`src/components/HexagonBounce.tsx`).
JavaScript numbers are modelled as real numbers; `Math.sqrt`, `Math.cos`,
`Math.sin` become `Real.sqrt`, `Real.cos`, `Real.sin`.  Mutation of the
ball/hexagon records is modelled by explicit state passing.
-/

/-- 2D vector, mirroring the `Vector2D` interface. -/
structure Vector2D where
  x : ℝ
  y : ℝ

/-- Ball state, mirroring the `Ball` interface. -/
structure Ball where
  position : Vector2D
  velocity : Vector2D
  radius : ℝ
  mass : ℝ

/-- Physics parameters, mirroring the `PhysicsParams` interface. -/
structure PhysicsParams where
  gravity : ℝ
  airFriction : ℝ
  bounceDamping : ℝ
  minVelocity : ℝ

/-- `addVectors` from physics.ts. -/
def addVectors (v1 v2 : Vector2D) : Vector2D :=
  ⟨v1.x + v2.x, v1.y + v2.y⟩

/-- `scaleVector` from physics.ts. -/
def scaleVector (v : Vector2D) (scalar : ℝ) : Vector2D :=
  ⟨v.x * scalar, v.y * scalar⟩

/-- `dotProduct` from physics.ts. -/
def dotProduct (v1 v2 : Vector2D) : ℝ :=
  v1.x * v2.x + v1.y * v2.y

/-- `vectorLength` from physics.ts. -/
noncomputable def vectorLength (v : Vector2D) : ℝ :=
  Real.sqrt (v.x * v.x + v.y * v.y)

/-- `normalizeVector` from physics.ts: zero vector is returned unchanged. -/
noncomputable def normalizeVector (v : Vector2D) : Vector2D :=
  if vectorLength v = 0 then ⟨0, 0⟩ else scaleVector v (1 / vectorLength v)

/-- `applyGravity` from physics.ts, as a state transformer on the ball. -/
def applyGravity (ball : Ball) (gravity deltaTime : ℝ) : Ball :=
  { ball with velocity := ⟨ball.velocity.x, ball.velocity.y + gravity * deltaTime⟩ }

/-- `applyAirFriction` from physics.ts, as a state transformer on the ball. -/
def applyAirFriction (ball : Ball) (airFriction deltaTime : ℝ) : Ball :=
  { ball with velocity :=
      ⟨ball.velocity.x * (1 - airFriction * deltaTime),
       ball.velocity.y * (1 - airFriction * deltaTime)⟩ }

/-- `updateBallPosition` from physics.ts, as a state transformer on the ball. -/
def updateBallPosition (ball : Ball) (deltaTime : ℝ) : Ball :=
  { ball with position :=
      ⟨ball.position.x + ball.velocity.x * deltaTime,
       ball.position.y + ball.velocity.y * deltaTime⟩ }

/-- `calculateBounceVelocity` from physics.ts.  Returns the velocity unchanged
when the relative normal speed is strictly positive; otherwise reflects with
damping and adds `wallVelocity * (1 - bounceDamping)`. -/
noncomputable def calculateBounceVelocity (velocity normal wallVelocity : Vector2D)
    (bounceDamping : ℝ) : Vector2D :=
  let relativeVelocity : Vector2D :=
    ⟨velocity.x - wallVelocity.x, velocity.y - wallVelocity.y⟩
  let normalSpeed := dotProduct relativeVelocity normal
  if normalSpeed > 0 then velocity
  else
    ⟨velocity.x - 2 * normalSpeed * normal.x * bounceDamping
        + wallVelocity.x * (1 - bounceDamping),
     velocity.y - 2 * normalSpeed * normal.y * bounceDamping
        + wallVelocity.y * (1 - bounceDamping)⟩

/-- `clampMinVelocity` from physics.ts, as a state transformer on the ball. -/
noncomputable def clampMinVelocity (ball : Ball) (minVelocity : ℝ) : Ball :=
  let speed := vectorLength ball.velocity
  if speed < minVelocity ∧ speed > 0 then
    let scale := minVelocity / speed
    { ball with velocity := ⟨ball.velocity.x * scale, ball.velocity.y * scale⟩ }
  else ball

/-- Line segment, mirroring the `LineSegment` interface (`end` renamed to
`endPt` because `end` is reserved in Lean). -/
structure LineSegment where
  start : Vector2D
  endPt : Vector2D

/-- Hexagon state, mirroring the `Hexagon` interface. -/
structure Hexagon where
  center : Vector2D
  radius : ℝ
  rotation : ℝ

/-- Vertex `i` of the hexagon: `center + radius * (cos angle, sin angle)` with
`angle = rotation + (π/3) * i`, exactly the loop body of `getHexagonVertices`. -/
noncomputable def hexVertexAt (hexagon : Hexagon) (i : ℕ) : Vector2D :=
  let angle := hexagon.rotation + Real.pi / 3 * i
  ⟨hexagon.center.x + hexagon.radius * Real.cos angle,
   hexagon.center.y + hexagon.radius * Real.sin angle⟩

/-- `getHexagonVertices` from geometry.ts: the six vertices in index order. -/
noncomputable def getHexagonVertices (hexagon : Hexagon) : List Vector2D :=
  (List.range 6).map (hexVertexAt hexagon)

/-- `getHexagonEdges` from geometry.ts: edge `i` joins vertex `i` to vertex
`(i+1) % 6`. -/
noncomputable def getHexagonEdges (hexagon : Hexagon) : List LineSegment :=
  (List.range 6).map fun i => ⟨hexVertexAt hexagon i, hexVertexAt hexagon ((i + 1) % 6)⟩

/-- Result record of `pointToSegmentDistance`. -/
structure DistanceResult where
  distance : ℝ
  closestPoint : Vector2D

/-- `pointToSegmentDistance` from geometry.ts: project the point onto the
segment, clamp the parameter to `[0,1]`, guard the zero-length segment by
leaving the parameter at `0`. -/
noncomputable def pointToSegmentDistance (point : Vector2D) (segment : LineSegment) :
    DistanceResult :=
  let segmentVector : Vector2D :=
    ⟨segment.endPt.x - segment.start.x, segment.endPt.y - segment.start.y⟩
  let pointVector : Vector2D :=
    ⟨point.x - segment.start.x, point.y - segment.start.y⟩
  let segmentLengthSquared :=
    segmentVector.x * segmentVector.x + segmentVector.y * segmentVector.y
  let t : ℝ :=
    if segmentLengthSquared ≠ 0 then
      max 0 (min 1 ((pointVector.x * segmentVector.x + pointVector.y * segmentVector.y)
        / segmentLengthSquared))
    else 0
  let closestPoint : Vector2D :=
    ⟨segment.start.x + t * segmentVector.x, segment.start.y + t * segmentVector.y⟩
  let dx := point.x - closestPoint.x
  let dy := point.y - closestPoint.y
  ⟨Real.sqrt (dx * dx + dy * dy), closestPoint⟩

/-- Result record of `circleSegmentCollision`; the optional fields of the
TypeScript result are `Option`s, absent exactly when `collided` is false. -/
structure CollisionResult where
  collided : Bool
  normal : Option Vector2D
  depth : Option ℝ
  contactPoint : Option Vector2D

/-- `circleSegmentCollision` from geometry.ts: no collision when the clamped
distance is `≥ radius`; otherwise the normal is the vector from the closest
point to the center, normalized only when its length is positive. -/
noncomputable def circleSegmentCollision (center : Vector2D) (radius : ℝ)
    (segment : LineSegment) : CollisionResult :=
  let r := pointToSegmentDistance center segment
  if r.distance ≥ radius then ⟨false, none, none, none⟩
  else
    let n0 : Vector2D := ⟨center.x - r.closestPoint.x, center.y - r.closestPoint.y⟩
    let normalLength := Real.sqrt (n0.x * n0.x + n0.y * n0.y)
    let n : Vector2D :=
      if normalLength > 0 then ⟨n0.x / normalLength, n0.y / normalLength⟩ else n0
    ⟨true, some n, some (radius - r.distance), some r.closestPoint⟩

/-- `getWallVelocity` from geometry.ts: tangential velocity of a boundary point
induced by the rotation. -/
def getWallVelocity (point : Vector2D) (hexagon : Hexagon) (angularVelocity : ℝ) :
    Vector2D :=
  let relativePos : Vector2D := ⟨point.x - hexagon.center.x, point.y - hexagon.center.y⟩
  ⟨-relativePos.y * angularVelocity, relativePos.x * angularVelocity⟩

/-- `getEdgeNormal` from geometry.ts: the edge vector rotated by
`(x, y) ↦ (-y, x)`, normalized when its length is positive. -/
noncomputable def getEdgeNormal (edge : LineSegment) : Vector2D :=
  let edgeVector : Vector2D :=
    ⟨edge.endPt.x - edge.start.x, edge.endPt.y - edge.start.y⟩
  let normal : Vector2D := ⟨-edgeVector.y, edgeVector.x⟩
  let length := Real.sqrt (normal.x * normal.x + normal.y * normal.y)
  if length > 0 then ⟨normal.x / length, normal.y / length⟩ else normal

/-- Cross-product test of `isPointInHexagon` for edge `i`. -/
noncomputable def hexCross (point : Vector2D) (hexagon : Hexagon) (i : ℕ) : ℝ :=
  let v1 := hexVertexAt hexagon i
  let v2 := hexVertexAt hexagon ((i + 1) % 6)
  (v2.x - v1.x) * (point.y - v1.y) - (v2.y - v1.y) * (point.x - v1.x)

/-- `isPointInHexagon` from geometry.ts: false as soon as some edge's cross
product is negative, true otherwise. -/
noncomputable def isPointInHexagon (point : Vector2D) (hexagon : Hexagon) : Bool :=
  (List.range 6).all fun i => !decide (hexCross point hexagon i < 0)

/-- One iteration of the edge loop in `handleCollisions`
(HexagonBounce.tsx): on a collision with all fields present, update the
velocity through `calculateBounceVelocity` and push the position out by
`depth` along the normal when `depth` is truthy (nonzero). -/
noncomputable def collideEdge (bounceDamping angularVelocity : ℝ) (hexagon : Hexagon)
    (ball : Ball) (edge : LineSegment) : Ball :=
  match circleSegmentCollision ball.position ball.radius edge with
  | ⟨true, some n, some d, some cp⟩ =>
    let wallVelocity := getWallVelocity cp hexagon angularVelocity
    let v := calculateBounceVelocity ball.velocity n wallVelocity bounceDamping
    let p : Vector2D :=
      if d ≠ 0 then ⟨ball.position.x + n.x * d, ball.position.y + n.y * d⟩
      else ball.position
    { ball with velocity := v, position := p }
  | _ => ball

/-- `handleCollisions` from HexagonBounce.tsx: fold the edge loop over the six
edges, then the containment fallback that nudges the ball 5 units toward the
center when it ended up outside the hexagon. -/
noncomputable def handleCollisions (ball : Ball) (hexagon : Hexagon)
    (angularVelocity bounceDamping : ℝ) : Ball :=
  let b := (getHexagonEdges hexagon).foldl (collideEdge bounceDamping angularVelocity hexagon) ball
  if isPointInHexagon b.position hexagon then b
  else
    let toCenterX := hexagon.center.x - b.position.x
    let toCenterY := hexagon.center.y - b.position.y
    let distance := Real.sqrt (toCenterX * toCenterX + toCenterY * toCenterY)
    if distance > 0 then
      { b with position :=
          ⟨b.position.x + toCenterX / distance * 5, b.position.y + toCenterY / distance * 5⟩ }
    else b

/-- The physics body of `gameLoop` (HexagonBounce.tsx lines 171-185): rotate
the hexagon, apply gravity and air friction, integrate the position, handle
collisions against the rotated hexagon, clamp the minimum speed. -/
noncomputable def stepPipeline (ball : Ball) (hexagon : Hexagon) (params : PhysicsParams)
    (rotationSpeed deltaTime : ℝ) : Ball × Hexagon :=
  let hexagon1 : Hexagon :=
    { hexagon with rotation := hexagon.rotation + rotationSpeed * deltaTime }
  let b1 := applyGravity ball params.gravity deltaTime
  let b2 := applyAirFriction b1 params.airFriction deltaTime
  let b3 := updateBallPosition b2 deltaTime
  let b4 := handleCollisions b3 hexagon1 rotationSpeed params.bounceDamping
  let b5 := clampMinVelocity b4 params.minVelocity
  (b5, hexagon1)

/-- One `gameLoop` invocation as it affects the simulation state: the physics
pipeline runs only under the guard `deltaTime > 0` (line 167 of
HexagonBounce.tsx); otherwise the state is untouched. -/
noncomputable def gameStep (ball : Ball) (hexagon : Hexagon) (params : PhysicsParams)
    (rotationSpeed deltaTime : ℝ) : Ball × Hexagon :=
  if deltaTime > 0 then stepPipeline ball hexagon params rotationSpeed deltaTime
  else (ball, hexagon)

/-! ### Helper lemmas -/

lemma pointToSegmentDistance_dist_nonneg (p : Vector2D) (s : LineSegment) :
    0 ≤ (pointToSegmentDistance p s).distance := by
  simp only [pointToSegmentDistance]
  exact Real.sqrt_nonneg _

lemma vectorLength_eq_one_iff (v : Vector2D) :
    vectorLength v = 1 ↔ v.x * v.x + v.y * v.y = 1 := by
  simp only [vectorLength]
  exact Real.sqrt_eq_one

/-! ### Claims -/

/-- Claim C1 (corrected), counterexample: at `v = (0,0)`, `n = (0,1)` (a unit
normal), `w = (1,0)`, `d = 1/2 ∈ (0,1]`, the relative normal speed
`dot(v - w, n)` is `0 ≥ 0`, yet `calculateBounceVelocity` does not return `v`:
the wall-velocity term `w * (1 - d)` is added, giving `(1/2, 0)`. -/
theorem calculateBounceVelocity_not_id_at_zero_normal_speed :
    (0:ℝ) < 1/2 ∧ (1:ℝ)/2 ≤ 1 ∧ vectorLength ⟨0, 1⟩ = 1 ∧
    0 ≤ dotProduct ⟨(0:ℝ) - 1, (0:ℝ) - 0⟩ ⟨0, 1⟩ ∧
    calculateBounceVelocity ⟨0, 0⟩ ⟨0, 1⟩ ⟨1, 0⟩ (1/2) ≠ ⟨0, 0⟩ := by
  refine ⟨by norm_num, by norm_num, ?_, by norm_num [dotProduct], ?_⟩
  · rw [vectorLength_eq_one_iff]; norm_num
  · norm_num [calculateBounceVelocity, dotProduct, Vector2D.mk.injEq]

/-- Claim C1 (amended): `calculateBounceVelocity` returns the incoming velocity
exactly unchanged whenever the relative normal speed `dot(v - w, n)` is
strictly positive (the separation test in the code is strict; at relative
normal speed exactly `0` the term `w * (1 - d)` is still added). -/
theorem calculateBounceVelocity_separating (velocity normal wallVelocity : Vector2D)
    (bounceDamping : ℝ)
    (h : 0 < dotProduct ⟨velocity.x - wallVelocity.x, velocity.y - wallVelocity.y⟩ normal) :
    calculateBounceVelocity velocity normal wallVelocity bounceDamping = velocity := by
  simp only [calculateBounceVelocity]
  rw [if_pos h]

/-- Witness for C1's amended theorem at `v = (0,1)`, `n = (0,1)`, `w = (0,0)`,
`d = 1`. -/
theorem calculateBounceVelocity_separating_witness :
    0 < dotProduct ⟨((⟨0, 1⟩ : Vector2D)).x - ((⟨0, 0⟩ : Vector2D)).x,
        ((⟨0, 1⟩ : Vector2D)).y - ((⟨0, 0⟩ : Vector2D)).y⟩ ⟨0, 1⟩ ∧
    calculateBounceVelocity ⟨0, 1⟩ ⟨0, 1⟩ ⟨0, 0⟩ 1 = ⟨0, 1⟩ :=
  ⟨by norm_num [dotProduct],
   calculateBounceVelocity_separating ⟨0, 1⟩ ⟨0, 1⟩ ⟨0, 0⟩ 1 (by norm_num [dotProduct])⟩

/-- Claim C5 (confirmed): against a stationary wall with damping `1`, a
velocity strictly approaching along a unit normal reflects elastically:
the result is `v - 2 * dot(v,n) * n`, its normal component is the exact
negation of the incoming one, and its tangential part is unchanged. -/
theorem calculateBounceVelocity_elastic (v n : Vector2D)
    (hn : vectorLength n = 1) (hv : dotProduct v n < 0) :
    calculateBounceVelocity v n ⟨0, 0⟩ 1 =
      ⟨v.x - 2 * dotProduct v n * n.x, v.y - 2 * dotProduct v n * n.y⟩ ∧
    dotProduct (calculateBounceVelocity v n ⟨0, 0⟩ 1) n = -dotProduct v n ∧
    (⟨(calculateBounceVelocity v n ⟨0, 0⟩ 1).x
        - dotProduct (calculateBounceVelocity v n ⟨0, 0⟩ 1) n * n.x,
      (calculateBounceVelocity v n ⟨0, 0⟩ 1).y
        - dotProduct (calculateBounceVelocity v n ⟨0, 0⟩ 1) n * n.y⟩ : Vector2D) =
      ⟨v.x - dotProduct v n * n.x, v.y - dotProduct v n * n.y⟩ := by
  rw [vectorLength_eq_one_iff] at hn
  have hcond : ¬ dotProduct ⟨v.x - (⟨0, 0⟩ : Vector2D).x, v.y - (⟨0, 0⟩ : Vector2D).y⟩ n > 0 := by
    simp only [dotProduct] at hv ⊢
    push_neg
    nlinarith [hv]
  have hres : calculateBounceVelocity v n ⟨0, 0⟩ 1 =
      ⟨v.x - 2 * dotProduct v n * n.x, v.y - 2 * dotProduct v n * n.y⟩ := by
    simp only [calculateBounceVelocity]
    rw [if_neg hcond]
    simp only [dotProduct, Vector2D.mk.injEq]
    constructor <;> ring
  refine ⟨hres, ?_, ?_⟩
  · rw [hres]
    simp only [dotProduct]
    linear_combination (-2 * (v.x * n.x + v.y * n.y)) * hn
  · rw [hres]
    simp only [dotProduct, Vector2D.mk.injEq]
    constructor
    · linear_combination (2 * (v.x * n.x + v.y * n.y) * n.x) * hn
    · linear_combination (2 * (v.x * n.x + v.y * n.y) * n.y) * hn

/-- Witness for C5 at `v = (0,-1)`, `n = (0,1)`. -/
theorem calculateBounceVelocity_elastic_witness :
    (vectorLength ⟨0, 1⟩ = 1 ∧ dotProduct ⟨0, -1⟩ ⟨0, 1⟩ < 0) ∧
    dotProduct (calculateBounceVelocity ⟨0, -1⟩ ⟨0, 1⟩ ⟨0, 0⟩ 1) ⟨0, 1⟩ =
      -dotProduct ⟨0, -1⟩ ⟨0, 1⟩ :=
  ⟨⟨by rw [vectorLength_eq_one_iff]; norm_num, by norm_num [dotProduct]⟩,
   (calculateBounceVelocity_elastic ⟨0, -1⟩ ⟨0, 1⟩
      (by rw [vectorLength_eq_one_iff]; norm_num) (by norm_num [dotProduct])).2.1⟩

/-- Claim C6 (corrected), counterexample: with a moving wall the post-bounce
relative normal speed can exceed the pre-bounce one.  At `v = (0,9)`,
`n = (0,1)`, `w = (0,10)`, `d = 1/2`: pre-bounce relative normal speed `-1`,
result `(0,15)`, post-bounce relative normal speed `5`, and `|5| < |-1|`
fails. -/
theorem calculateBounceVelocity_moving_wall_counterexample :
    (0:ℝ) < 1/2 ∧ (1:ℝ)/2 < 1 ∧ vectorLength ⟨0, 1⟩ = 1 ∧
    dotProduct ⟨(0:ℝ) - 0, (9:ℝ) - 10⟩ ⟨0, 1⟩ < 0 ∧
    ¬ |dotProduct ⟨(calculateBounceVelocity ⟨0, 9⟩ ⟨0, 1⟩ ⟨0, 10⟩ (1/2)).x - 0,
          (calculateBounceVelocity ⟨0, 9⟩ ⟨0, 1⟩ ⟨0, 10⟩ (1/2)).y - 10⟩ ⟨0, 1⟩|
        < |dotProduct ⟨(0:ℝ) - 0, (9:ℝ) - 10⟩ ⟨0, 1⟩| := by
  have hres : calculateBounceVelocity ⟨0, 9⟩ ⟨0, 1⟩ ⟨0, 10⟩ (1/2) = ⟨0, 15⟩ := by
    simp only [calculateBounceVelocity, dotProduct]
    rw [if_neg (by norm_num)]
    norm_num
  refine ⟨by norm_num, by norm_num, ?_, by norm_num [dotProduct], ?_⟩
  · rw [vectorLength_eq_one_iff]; norm_num
  · rw [hres]
    norm_num [dotProduct]

/-- Claim C6 (amended): against a stationary wall (`w = 0`), for damping
`0 < d < 1`, a strictly approaching velocity along a unit normal loses normal
speed: the post-bounce normal-speed magnitude is strictly below the pre-bounce
one. -/
theorem calculateBounceVelocity_damping_shrinks_normal_speed (v n : Vector2D) (d : ℝ)
    (hn : vectorLength n = 1) (hv : dotProduct v n < 0) (hd0 : 0 < d) (hd1 : d < 1) :
    |dotProduct (calculateBounceVelocity v n ⟨0, 0⟩ d) n| < |dotProduct v n| := by
  rw [vectorLength_eq_one_iff] at hn
  have hcond : ¬ dotProduct ⟨v.x - (⟨0, 0⟩ : Vector2D).x, v.y - (⟨0, 0⟩ : Vector2D).y⟩ n > 0 := by
    simp only [dotProduct] at hv ⊢
    push_neg
    nlinarith [hv]
  have hpost : dotProduct (calculateBounceVelocity v n ⟨0, 0⟩ d) n =
      dotProduct v n * (1 - 2 * d) := by
    simp only [calculateBounceVelocity]
    rw [if_neg hcond]
    simp only [dotProduct]
    linear_combination (-2 * d * (v.x * n.x + v.y * n.y)) * hn
  rw [hpost, abs_mul]
  have habs : |dotProduct v n| > 0 := abs_pos.mpr (ne_of_lt hv)
  have h1 : |1 - 2 * d| < 1 := abs_lt.mpr ⟨by linarith, by linarith⟩
  calc |dotProduct v n| * |1 - 2 * d| < |dotProduct v n| * 1 := by
        exact mul_lt_mul_of_pos_left h1 habs
    _ = |dotProduct v n| := mul_one _

/-- Witness for C6's amended theorem at `v = (0,-1)`, `n = (0,1)`, `d = 1/2`. -/
theorem calculateBounceVelocity_damping_shrinks_normal_speed_witness :
    (vectorLength ⟨0, 1⟩ = 1 ∧ dotProduct ⟨0, -1⟩ ⟨0, 1⟩ < 0 ∧
      (0:ℝ) < 1/2 ∧ (1:ℝ)/2 < 1) ∧
    |dotProduct (calculateBounceVelocity ⟨0, -1⟩ ⟨0, 1⟩ ⟨0, 0⟩ (1/2)) ⟨0, 1⟩| <
      |dotProduct ⟨0, -1⟩ ⟨0, 1⟩| :=
  ⟨⟨by rw [vectorLength_eq_one_iff]; norm_num, by norm_num [dotProduct],
     by norm_num, by norm_num⟩,
   calculateBounceVelocity_damping_shrinks_normal_speed ⟨0, -1⟩ ⟨0, 1⟩ (1/2)
     (by rw [vectorLength_eq_one_iff]; norm_num) (by norm_num [dotProduct])
     (by norm_num) (by norm_num)⟩

/-- Claim C7 (confirmed): `circleSegmentCollision` reports a collision exactly
when the clamped closest-point distance is strictly below the radius; in
particular at radius equal to that distance it reports no collision. -/
theorem circleSegmentCollision_collided_iff :
    (∀ (center : Vector2D) (radius : ℝ) (segment : LineSegment),
        (circleSegmentCollision center radius segment).collided = true ↔
          (pointToSegmentDistance center segment).distance < radius) ∧
    (∀ (center : Vector2D) (segment : LineSegment),
        (circleSegmentCollision center
          ((pointToSegmentDistance center segment).distance) segment).collided = false) := by
  constructor
  · intro c r s
    simp only [circleSegmentCollision]
    by_cases h : (pointToSegmentDistance c s).distance ≥ r
    · rw [if_pos h]
      simp [not_lt.mpr h]
    · rw [if_neg h]
      simp [lt_of_not_ge h]
  · intro c s
    simp only [circleSegmentCollision]
    rw [if_pos (le_refl _)]

/-- Claim C8 (confirmed): on a degenerate segment whose start equals its end
the clamp parameter stays `0`, so the closest point is the segment start and
the distance is the Euclidean distance from the query point to that start. -/
theorem pointToSegmentDistance_degenerate (p : Vector2D) (s : LineSegment)
    (h : s.start = s.endPt) :
    (pointToSegmentDistance p s).closestPoint = s.start ∧
    (pointToSegmentDistance p s).distance =
      Real.sqrt ((p.x - s.start.x) * (p.x - s.start.x) +
        (p.y - s.start.y) * (p.y - s.start.y)) := by
  simp only [pointToSegmentDistance, ← h]
  norm_num

/-- Witness for C8 at `p = (3,4)` and the zero-length segment at the origin. -/
theorem pointToSegmentDistance_degenerate_witness :
    (⟨⟨0, 0⟩, ⟨0, 0⟩⟩ : LineSegment).start = (⟨⟨0, 0⟩, ⟨0, 0⟩⟩ : LineSegment).endPt ∧
    ((pointToSegmentDistance ⟨3, 4⟩ ⟨⟨0, 0⟩, ⟨0, 0⟩⟩).closestPoint = ⟨0, 0⟩ ∧
     (pointToSegmentDistance ⟨3, 4⟩ ⟨⟨0, 0⟩, ⟨0, 0⟩⟩).distance =
       Real.sqrt (((3:ℝ) - 0) * ((3:ℝ) - 0) + ((4:ℝ) - 0) * ((4:ℝ) - 0))) :=
  ⟨rfl, pointToSegmentDistance_degenerate ⟨3, 4⟩ ⟨⟨0, 0⟩, ⟨0, 0⟩⟩ rfl⟩

/-- Claim C9 (confirmed): for `minVelocity ≥ 0`, `clampMinVelocity` leaves a
zero velocity and any velocity of speed at least `minVelocity` unchanged, and
rescales a velocity of strictly positive speed below `minVelocity` to exact
magnitude `minVelocity` by a positive scalar multiple (direction preserved). -/
theorem clampMinVelocity_cases (ball : Ball) (minVelocity : ℝ)
    (hmin : 0 ≤ minVelocity) :
    (vectorLength ball.velocity = 0 → clampMinVelocity ball minVelocity = ball) ∧
    (0 < vectorLength ball.velocity → vectorLength ball.velocity < minVelocity →
      vectorLength (clampMinVelocity ball minVelocity).velocity = minVelocity ∧
      ∃ c : ℝ, 0 < c ∧ (clampMinVelocity ball minVelocity).velocity =
        ⟨c * ball.velocity.x, c * ball.velocity.y⟩) ∧
    (minVelocity ≤ vectorLength ball.velocity → clampMinVelocity ball minVelocity = ball) := by
  refine ⟨?_, ?_, ?_⟩
  · intro h0
    simp only [clampMinVelocity]
    rw [if_neg]
    rintro ⟨-, hpos⟩
    rw [h0] at hpos
    exact lt_irrefl 0 hpos
  · intro hpos hlt
    have hcond : vectorLength ball.velocity < minVelocity ∧ vectorLength ball.velocity > 0 :=
      ⟨hlt, hpos⟩
    have hL : vectorLength ball.velocity ≠ 0 := ne_of_gt hpos
    have hres : (clampMinVelocity ball minVelocity).velocity =
        ⟨ball.velocity.x * (minVelocity / vectorLength ball.velocity),
         ball.velocity.y * (minVelocity / vectorLength ball.velocity)⟩ := by
      simp only [clampMinVelocity]
      rw [if_pos hcond]
    have hscale : 0 < minVelocity / vectorLength ball.velocity :=
      div_pos (lt_of_le_of_lt (le_of_lt hpos) hlt) hpos
    constructor
    · rw [hres]
      simp only [vectorLength] at hpos hlt ⊢
      set s := minVelocity / Real.sqrt (ball.velocity.x * ball.velocity.x +
        ball.velocity.y * ball.velocity.y) with hs
      have hsq : ball.velocity.x * s * (ball.velocity.x * s) +
          ball.velocity.y * s * (ball.velocity.y * s) =
          (s * s) * (ball.velocity.x * ball.velocity.x +
            ball.velocity.y * ball.velocity.y) := by ring
      have hs0 : 0 ≤ s := by
        rw [hs]
        exact div_nonneg hmin (Real.sqrt_nonneg _)
      rw [hsq, Real.sqrt_mul (mul_self_nonneg s), Real.sqrt_mul_self hs0, hs,
        div_mul_cancel₀]
      simpa [vectorLength] using hL
    · exact ⟨minVelocity / vectorLength ball.velocity, hscale, by
        rw [hres]; simp only [Vector2D.mk.injEq]; constructor <;> ring⟩
  · intro hge
    simp only [clampMinVelocity]
    rw [if_neg]
    rintro ⟨hlt, -⟩
    exact absurd hge (not_le.mpr hlt)

/-- Witness for C9: a ball with velocity `(3,4)` (speed `5`) and
`minVelocity = 10` is rescaled to `(6,8)` of length exactly `10`. -/
theorem clampMinVelocity_cases_witness :
    (0:ℝ) ≤ 10 ∧
    vectorLength (clampMinVelocity ⟨⟨0, 0⟩, ⟨3, 4⟩, 1, 1⟩ 10).velocity = 10 ∧
    ∃ c : ℝ, 0 < c ∧ (clampMinVelocity ⟨⟨0, 0⟩, ⟨3, 4⟩, 1, 1⟩ 10).velocity =
      ⟨c * (⟨3, 4⟩ : Vector2D).x, c * (⟨3, 4⟩ : Vector2D).y⟩ := by
  have h5 : vectorLength ((⟨⟨0, 0⟩, ⟨3, 4⟩, 1, 1⟩ : Ball).velocity) = 5 := by
    show Real.sqrt ((3:ℝ) * 3 + 4 * 4) = 5
    rw [show (3:ℝ) * 3 + 4 * 4 = 5 * 5 by norm_num]
    exact Real.sqrt_mul_self (by norm_num)
  have := (clampMinVelocity_cases ⟨⟨0, 0⟩, ⟨3, 4⟩, 1, 1⟩ 10 (by norm_num)).2.1
    (by rw [h5]; norm_num) (by rw [h5]; norm_num)
  exact ⟨by norm_num, this.1, this.2⟩

/-- Claim C10 (confirmed): for a non-positive radius `circleSegmentCollision`
always reports no collision, because the closest-point distance is a square
root and hence non-negative. -/
theorem circleSegmentCollision_nonpositive_radius (center : Vector2D) (radius : ℝ)
    (segment : LineSegment) (h : radius ≤ 0) :
    (circleSegmentCollision center radius segment).collided = false := by
  simp only [circleSegmentCollision]
  rw [if_pos (le_trans h (pointToSegmentDistance_dist_nonneg center segment))]

/-- Witness for C10 at radius `0`. -/
theorem circleSegmentCollision_nonpositive_radius_witness :
    (0:ℝ) ≤ 0 ∧
    (circleSegmentCollision ⟨0, 0⟩ 0 ⟨⟨1, 0⟩, ⟨2, 0⟩⟩).collided = false :=
  ⟨le_refl 0,
   circleSegmentCollision_nonpositive_radius ⟨0, 0⟩ 0 ⟨⟨1, 0⟩, ⟨2, 0⟩⟩ (le_refl 0)⟩

lemma pointToSegmentDistance_dist_eq (p : Vector2D) (s : LineSegment) :
    (pointToSegmentDistance p s).distance =
      Real.sqrt ((p.x - (pointToSegmentDistance p s).closestPoint.x) *
          (p.x - (pointToSegmentDistance p s).closestPoint.x) +
        (p.y - (pointToSegmentDistance p s).closestPoint.y) *
          (p.y - (pointToSegmentDistance p s).closestPoint.y)) := by
  simp only [pointToSegmentDistance]

lemma circleSegmentCollision_collided_lt (center : Vector2D) (radius : ℝ)
    (segment : LineSegment) :
    (circleSegmentCollision center radius segment).collided = true ↔
      (pointToSegmentDistance center segment).distance < radius := by
  simp only [circleSegmentCollision]
  by_cases h : (pointToSegmentDistance center segment).distance ≥ radius
  · rw [if_pos h]
    simp [not_lt.mpr h]
  · rw [if_neg h]
    simp [lt_of_not_ge h]

/-- Claim C4 (corrected), counterexample: when the circle center lies exactly
on the segment the code skips normalization (`normalLength > 0` fails) and
reports a collision whose normal is the zero vector, which does not have
length 1. -/
theorem circleSegmentCollision_zero_normal_counterexample :
    (circleSegmentCollision ⟨0, 0⟩ 1 ⟨⟨-1, 0⟩, ⟨1, 0⟩⟩).collided = true ∧
    (circleSegmentCollision ⟨0, 0⟩ 1 ⟨⟨-1, 0⟩, ⟨1, 0⟩⟩).normal = some ⟨0, 0⟩ ∧
    vectorLength ⟨0, 0⟩ ≠ 1 := by
  have hpt : pointToSegmentDistance ⟨0, 0⟩ ⟨⟨-1, 0⟩, ⟨1, 0⟩⟩ =
      ⟨0, ⟨0, 0⟩⟩ := by
    simp only [pointToSegmentDistance, DistanceResult.mk.injEq, Vector2D.mk.injEq]
    norm_num [min_def, max_def]
  refine ⟨?_, ?_, ?_⟩
  · simp only [circleSegmentCollision, hpt]
    rw [if_neg (by norm_num)]
  · simp only [circleSegmentCollision, hpt]
    rw [if_neg (by norm_num)]
    norm_num
  · simp only [vectorLength]
    norm_num

/-- Claim C4 (amended): whenever `circleSegmentCollision` reports a collision
and the center does not coincide with the closest point (the clamped distance
is nonzero), the reported normal is a unit vector; in the degenerate
coincident case the normal is the zero vector instead. -/
theorem circleSegmentCollision_normal_unit (center : Vector2D) (radius : ℝ)
    (segment : LineSegment)
    (hc : (circleSegmentCollision center radius segment).collided = true)
    (hd : (pointToSegmentDistance center segment).distance ≠ 0) :
    ∀ n, (circleSegmentCollision center radius segment).normal = some n →
      vectorLength n = 1 := by
  intro n hn
  have hlt : (pointToSegmentDistance center segment).distance < radius :=
    (circleSegmentCollision_collided_lt center radius segment).mp hc
  have hL0 : 0 < (pointToSegmentDistance center segment).distance :=
    lt_of_le_of_ne (pointToSegmentDistance_dist_nonneg _ _) (Ne.symm hd)
  have hLpos : 0 < Real.sqrt
      ((center.x - (pointToSegmentDistance center segment).closestPoint.x) *
          (center.x - (pointToSegmentDistance center segment).closestPoint.x) +
        (center.y - (pointToSegmentDistance center segment).closestPoint.y) *
          (center.y - (pointToSegmentDistance center segment).closestPoint.y)) := by
    rw [← pointToSegmentDistance_dist_eq]
    exact hL0
  simp only [circleSegmentCollision] at hn
  rw [if_neg (not_le.mpr hlt)] at hn
  simp only [if_pos hLpos, Option.some.injEq] at hn
  rw [← hn, vectorLength_eq_one_iff]
  set x := center.x - (pointToSegmentDistance center segment).closestPoint.x with hx
  set y := center.y - (pointToSegmentDistance center segment).closestPoint.y with hy
  have hLL : Real.sqrt (x * x + y * y) * Real.sqrt (x * x + y * y) = x * x + y * y :=
    Real.mul_self_sqrt (add_nonneg (mul_self_nonneg x) (mul_self_nonneg y))
  have hLne : Real.sqrt (x * x + y * y) ≠ 0 := ne_of_gt hLpos
  field_simp
  linarith [hLL]

/-- Witness for C4's amended theorem: center `(0,2)`, radius `3`, segment from
`(-1,0)` to `(1,0)`: distance `2`, normal `(0,1)` of length `1`. -/
theorem circleSegmentCollision_normal_unit_witness :
    (circleSegmentCollision ⟨0, 2⟩ 3 ⟨⟨-1, 0⟩, ⟨1, 0⟩⟩).collided = true ∧
    (pointToSegmentDistance ⟨0, 2⟩ ⟨⟨-1, 0⟩, ⟨1, 0⟩⟩).distance ≠ 0 ∧
    ∀ n, (circleSegmentCollision ⟨0, 2⟩ 3 ⟨⟨-1, 0⟩, ⟨1, 0⟩⟩).normal = some n →
      vectorLength n = 1 := by
  have hpt : pointToSegmentDistance ⟨0, 2⟩ ⟨⟨-1, 0⟩, ⟨1, 0⟩⟩ =
      ⟨2, ⟨0, 0⟩⟩ := by
    simp only [pointToSegmentDistance, DistanceResult.mk.injEq, Vector2D.mk.injEq]
    norm_num [min_def, max_def]
    rw [show (4:ℝ) = 2 * 2 by norm_num]
    exact Real.sqrt_mul_self (by norm_num)
  have hcol : (circleSegmentCollision ⟨0, 2⟩ 3 ⟨⟨-1, 0⟩, ⟨1, 0⟩⟩).collided = true := by
    simp only [circleSegmentCollision, hpt]
    rw [if_neg (by norm_num)]
  exact ⟨hcol, by rw [hpt]; norm_num,
    circleSegmentCollision_normal_unit ⟨0, 2⟩ 3 ⟨⟨-1, 0⟩, ⟨1, 0⟩⟩ hcol
      (by rw [hpt]; norm_num)⟩

lemma sqrt_three_sq : Real.sqrt 3 * Real.sqrt 3 = 3 :=
  Real.mul_self_sqrt (by norm_num)

lemma sqrt_three_pos : 0 < Real.sqrt 3 :=
  Real.sqrt_pos.mpr (by norm_num)

lemma hexVertexAt_unit_zero : hexVertexAt ⟨⟨0, 0⟩, 1, 0⟩ 0 = ⟨1, 0⟩ := by
  simp only [hexVertexAt, Vector2D.mk.injEq]
  norm_num

lemma hexVertexAt_unit_one :
    hexVertexAt ⟨⟨0, 0⟩, 1, 0⟩ 1 = ⟨1 / 2, Real.sqrt 3 / 2⟩ := by
  simp only [hexVertexAt, Vector2D.mk.injEq]
  norm_num [Real.cos_pi_div_three, Real.sin_pi_div_three]

/-- Claim C2 (code_bug): the spec and the code's own doc comment demand an
outward normal, but on the unit hexagon centered at the origin with rotation
`0` the normal returned by `getEdgeNormal` for the first edge of
`getHexagonEdges` has strictly negative dot product with the vector from the
hexagon center to the edge midpoint: it points toward the hexagon interior,
not away from it. -/
theorem getEdgeNormal_points_toward_interior :
    0 < (⟨⟨0, 0⟩, 1, 0⟩ : Hexagon).radius ∧
    ∃ e ∈ getHexagonEdges ⟨⟨0, 0⟩, 1, 0⟩,
      dotProduct (getEdgeNormal e)
        ⟨(e.start.x + e.endPt.x) / 2 - (⟨⟨0, 0⟩, 1, 0⟩ : Hexagon).center.x,
         (e.start.y + e.endPt.y) / 2 - (⟨⟨0, 0⟩, 1, 0⟩ : Hexagon).center.y⟩ < 0 := by
  refine ⟨by norm_num, ⟨hexVertexAt ⟨⟨0, 0⟩, 1, 0⟩ 0, hexVertexAt ⟨⟨0, 0⟩, 1, 0⟩ 1⟩, ?_, ?_⟩
  · simp only [getHexagonEdges, List.mem_map]
    exact ⟨0, by simp, rfl⟩
  · rw [hexVertexAt_unit_zero, hexVertexAt_unit_one]
    simp only [getEdgeNormal, dotProduct]
    have hlen : Real.sqrt (-(Real.sqrt 3 / 2 - 0) * -(Real.sqrt 3 / 2 - 0) +
        (1 / 2 - 1) * (1 / 2 - 1)) = 1 := by
      rw [show -(Real.sqrt 3 / 2 - 0) * -(Real.sqrt 3 / 2 - 0) +
          ((1:ℝ) / 2 - 1) * ((1:ℝ) / 2 - 1) = 1 by
        linear_combination sqrt_three_sq / 4]
      exact Real.sqrt_one
    rw [hlen]
    rw [if_pos (by norm_num)]
    have h3 := sqrt_three_pos
    nlinarith [h3]

lemma sqrt_three_ge_one : (1:ℝ) ≤ Real.sqrt 3 := by
  rw [show (1:ℝ) = Real.sqrt 1 from Real.sqrt_one.symm]
  exact Real.sqrt_le_sqrt (by norm_num)

lemma hex3_v0 : hexVertexAt ⟨⟨0, 0⟩, 2, 0⟩ 0 = ⟨2, 0⟩ := by
  simp only [hexVertexAt, Vector2D.mk.injEq]
  norm_num

lemma hex3_v1 : hexVertexAt ⟨⟨0, 0⟩, 2, 0⟩ 1 = ⟨1, Real.sqrt 3⟩ := by
  simp only [hexVertexAt, Vector2D.mk.injEq]
  rw [show (0:ℝ) + Real.pi / 3 * ((1:ℕ):ℝ) = Real.pi / 3 by push_cast; ring]
  rw [Real.cos_pi_div_three, Real.sin_pi_div_three]
  constructor <;> ring

lemma hex3_v2 : hexVertexAt ⟨⟨0, 0⟩, 2, 0⟩ 2 = ⟨-1, Real.sqrt 3⟩ := by
  simp only [hexVertexAt, Vector2D.mk.injEq]
  rw [show (0:ℝ) + Real.pi / 3 * ((2:ℕ):ℝ) = Real.pi - Real.pi / 3 by push_cast; ring]
  rw [Real.cos_pi_sub, Real.sin_pi_sub, Real.cos_pi_div_three, Real.sin_pi_div_three]
  constructor <;> ring

lemma hex3_v3 : hexVertexAt ⟨⟨0, 0⟩, 2, 0⟩ 3 = ⟨-2, 0⟩ := by
  simp only [hexVertexAt, Vector2D.mk.injEq]
  rw [show (0:ℝ) + Real.pi / 3 * ((3:ℕ):ℝ) = Real.pi by push_cast; ring]
  rw [Real.cos_pi, Real.sin_pi]
  constructor <;> ring

lemma hex3_v4 : hexVertexAt ⟨⟨0, 0⟩, 2, 0⟩ 4 = ⟨-1, -Real.sqrt 3⟩ := by
  simp only [hexVertexAt, Vector2D.mk.injEq]
  rw [show (0:ℝ) + Real.pi / 3 * ((4:ℕ):ℝ) = Real.pi + Real.pi / 3 by push_cast; ring]
  rw [Real.cos_add, Real.sin_add, Real.cos_pi, Real.sin_pi,
    Real.cos_pi_div_three, Real.sin_pi_div_three]
  constructor <;> ring

lemma hex3_v5 : hexVertexAt ⟨⟨0, 0⟩, 2, 0⟩ 5 = ⟨1, -Real.sqrt 3⟩ := by
  simp only [hexVertexAt, Vector2D.mk.injEq]
  rw [show (0:ℝ) + Real.pi / 3 * ((5:ℕ):ℝ) = 2 * Real.pi - Real.pi / 3 by push_cast; ring]
  rw [Real.cos_sub, Real.sin_sub, Real.cos_two_pi, Real.sin_two_pi,
    Real.cos_pi_div_three, Real.sin_pi_div_three]
  constructor <;> ring

lemma hex3_edges : getHexagonEdges ⟨⟨0, 0⟩, 2, 0⟩ =
    [⟨⟨2, 0⟩, ⟨1, Real.sqrt 3⟩⟩, ⟨⟨1, Real.sqrt 3⟩, ⟨-1, Real.sqrt 3⟩⟩,
     ⟨⟨-1, Real.sqrt 3⟩, ⟨-2, 0⟩⟩, ⟨⟨-2, 0⟩, ⟨-1, -Real.sqrt 3⟩⟩,
     ⟨⟨-1, -Real.sqrt 3⟩, ⟨1, -Real.sqrt 3⟩⟩, ⟨⟨1, -Real.sqrt 3⟩, ⟨2, 0⟩⟩] := by
  simp only [getHexagonEdges]
  rw [show List.range 6 = [0, 1, 2, 3, 4, 5] from rfl]
  simp only [List.map_cons, List.map_nil]
  norm_num [hex3_v0, hex3_v1, hex3_v2, hex3_v3, hex3_v4, hex3_v5]

lemma pointToSegmentDistance_eval (px py ax ay bx qy t : ℝ)
    (hlen : (bx - ax) * (bx - ax) + (qy - ay) * (qy - ay) ≠ 0)
    (ht : t = max 0 (min 1 (((px - ax) * (bx - ax) + (py - ay) * (qy - ay)) /
      ((bx - ax) * (bx - ax) + (qy - ay) * (qy - ay))))) :
    pointToSegmentDistance ⟨px, py⟩ ⟨⟨ax, ay⟩, ⟨bx, qy⟩⟩ =
      ⟨Real.sqrt ((px - (ax + t * (bx - ax))) * (px - (ax + t * (bx - ax))) +
          (py - (ay + t * (qy - ay))) * (py - (ay + t * (qy - ay)))),
       ⟨ax + t * (bx - ax), ay + t * (qy - ay)⟩⟩ := by
  simp only [pointToSegmentDistance]
  rw [if_pos hlen, ← ht]

lemma collideEdge_of_no_hit (bounceDamping angularVelocity : ℝ) (hexagon : Hexagon)
    (ball : Ball) (edge : LineSegment)
    (h : (pointToSegmentDistance ball.position edge).distance ≥ ball.radius) :
    collideEdge bounceDamping angularVelocity hexagon ball edge = ball := by
  simp only [collideEdge, circleSegmentCollision]
  rw [if_pos h]

lemma hex3_dist_e0 :
    (pointToSegmentDistance ⟨0, 0⟩ ⟨⟨2, 0⟩, ⟨1, Real.sqrt 3⟩⟩).distance = Real.sqrt 3 := by
  have hd : ((1:ℝ) - 2) * ((1:ℝ) - 2) + (Real.sqrt 3 - 0) * (Real.sqrt 3 - 0) = 4 := by
    linear_combination sqrt_three_sq
  rw [pointToSegmentDistance_eval 0 0 2 0 1 (Real.sqrt 3) (1/2)
    (by rw [hd]; norm_num)
    (by rw [hd, show ((0:ℝ) - 2) * (1 - 2) + ((0:ℝ) - 0) * (Real.sqrt 3 - 0) = 2 by ring]
        norm_num [min_def, max_def])]
  show Real.sqrt _ = Real.sqrt 3
  congr 1
  linear_combination (1/4) * sqrt_three_sq

lemma hex3_dist_e1 :
    (pointToSegmentDistance ⟨0, 0⟩ ⟨⟨1, Real.sqrt 3⟩, ⟨-1, Real.sqrt 3⟩⟩).distance =
      Real.sqrt 3 := by
  have hd : ((-1:ℝ) - 1) * ((-1:ℝ) - 1) +
      (Real.sqrt 3 - Real.sqrt 3) * (Real.sqrt 3 - Real.sqrt 3) = 4 := by ring
  rw [pointToSegmentDistance_eval 0 0 1 (Real.sqrt 3) (-1) (Real.sqrt 3) (1/2)
    (by rw [hd]; norm_num)
    (by rw [hd, show ((0:ℝ) - 1) * (-1 - 1) +
          ((0:ℝ) - Real.sqrt 3) * (Real.sqrt 3 - Real.sqrt 3) = 2 by ring]
        norm_num [min_def, max_def])]
  show Real.sqrt _ = Real.sqrt 3
  congr 1
  linear_combination sqrt_three_sq

lemma hex3_dist_e2 :
    (pointToSegmentDistance ⟨0, 0⟩ ⟨⟨-1, Real.sqrt 3⟩, ⟨-2, 0⟩⟩).distance = Real.sqrt 3 := by
  have hd : ((-2:ℝ) - -1) * ((-2:ℝ) - -1) + (0 - Real.sqrt 3) * (0 - Real.sqrt 3) = 4 := by
    linear_combination sqrt_three_sq
  rw [pointToSegmentDistance_eval 0 0 (-1) (Real.sqrt 3) (-2) 0 (1/2)
    (by rw [hd]; norm_num)
    (by rw [hd, show ((0:ℝ) - -1) * (-2 - -1) +
          ((0:ℝ) - Real.sqrt 3) * (0 - Real.sqrt 3) = 2 by linear_combination sqrt_three_sq]
        norm_num [min_def, max_def])]
  show Real.sqrt _ = Real.sqrt 3
  congr 1
  linear_combination (1/4) * sqrt_three_sq

lemma hex3_dist_e3 :
    (pointToSegmentDistance ⟨0, 0⟩ ⟨⟨-2, 0⟩, ⟨-1, -Real.sqrt 3⟩⟩).distance = Real.sqrt 3 := by
  have hd : ((-1:ℝ) - -2) * ((-1:ℝ) - -2) + (-Real.sqrt 3 - 0) * (-Real.sqrt 3 - 0) = 4 := by
    linear_combination sqrt_three_sq
  rw [pointToSegmentDistance_eval 0 0 (-2) 0 (-1) (-Real.sqrt 3) (1/2)
    (by rw [hd]; norm_num)
    (by rw [hd, show ((0:ℝ) - -2) * (-1 - -2) +
          ((0:ℝ) - 0) * (-Real.sqrt 3 - 0) = 2 by ring]
        norm_num [min_def, max_def])]
  show Real.sqrt _ = Real.sqrt 3
  congr 1
  linear_combination (1/4) * sqrt_three_sq

lemma hex3_dist_e4 :
    (pointToSegmentDistance ⟨0, 0⟩ ⟨⟨-1, -Real.sqrt 3⟩, ⟨1, -Real.sqrt 3⟩⟩).distance =
      Real.sqrt 3 := by
  have hd : ((1:ℝ) - -1) * ((1:ℝ) - -1) +
      (-Real.sqrt 3 - -Real.sqrt 3) * (-Real.sqrt 3 - -Real.sqrt 3) = 4 := by ring
  rw [pointToSegmentDistance_eval 0 0 (-1) (-Real.sqrt 3) 1 (-Real.sqrt 3) (1/2)
    (by rw [hd]; norm_num)
    (by rw [hd, show ((0:ℝ) - -1) * (1 - -1) +
          ((0:ℝ) - -Real.sqrt 3) * (-Real.sqrt 3 - -Real.sqrt 3) = 2 by ring]
        norm_num [min_def, max_def])]
  show Real.sqrt _ = Real.sqrt 3
  congr 1
  linear_combination sqrt_three_sq

lemma hex3_dist_e5 :
    (pointToSegmentDistance ⟨0, 0⟩ ⟨⟨1, -Real.sqrt 3⟩, ⟨2, 0⟩⟩).distance = Real.sqrt 3 := by
  have hd : ((2:ℝ) - 1) * ((2:ℝ) - 1) + (0 - -Real.sqrt 3) * (0 - -Real.sqrt 3) = 4 := by
    linear_combination sqrt_three_sq
  rw [pointToSegmentDistance_eval 0 0 1 (-Real.sqrt 3) 2 0 (1/2)
    (by rw [hd]; norm_num)
    (by rw [hd, show ((0:ℝ) - 1) * (2 - 1) +
          ((0:ℝ) - -Real.sqrt 3) * (0 - -Real.sqrt 3) = 2 by linear_combination sqrt_three_sq]
        norm_num [min_def, max_def])]
  show Real.sqrt _ = Real.sqrt 3
  congr 1
  linear_combination (1/4) * sqrt_three_sq

lemma hex3_no_hit_e0 :
    collideEdge (17/20) (1/2) ⟨⟨0, 0⟩, 2, 0⟩ ⟨⟨0, 0⟩, ⟨1, 0⟩, 1, 1⟩
      ⟨⟨2, 0⟩, ⟨1, Real.sqrt 3⟩⟩ = ⟨⟨0, 0⟩, ⟨1, 0⟩, 1, 1⟩ :=
  collideEdge_of_no_hit _ _ _ _ _ (by
    show (pointToSegmentDistance ⟨0, 0⟩ ⟨⟨2, 0⟩, ⟨1, Real.sqrt 3⟩⟩).distance ≥ 1
    rw [hex3_dist_e0]; exact sqrt_three_ge_one)

lemma hex3_no_hit_e1 :
    collideEdge (17/20) (1/2) ⟨⟨0, 0⟩, 2, 0⟩ ⟨⟨0, 0⟩, ⟨1, 0⟩, 1, 1⟩
      ⟨⟨1, Real.sqrt 3⟩, ⟨-1, Real.sqrt 3⟩⟩ = ⟨⟨0, 0⟩, ⟨1, 0⟩, 1, 1⟩ :=
  collideEdge_of_no_hit _ _ _ _ _ (by
    show (pointToSegmentDistance ⟨0, 0⟩ ⟨⟨1, Real.sqrt 3⟩, ⟨-1, Real.sqrt 3⟩⟩).distance ≥ 1
    rw [hex3_dist_e1]; exact sqrt_three_ge_one)

lemma hex3_no_hit_e2 :
    collideEdge (17/20) (1/2) ⟨⟨0, 0⟩, 2, 0⟩ ⟨⟨0, 0⟩, ⟨1, 0⟩, 1, 1⟩
      ⟨⟨-1, Real.sqrt 3⟩, ⟨-2, 0⟩⟩ = ⟨⟨0, 0⟩, ⟨1, 0⟩, 1, 1⟩ :=
  collideEdge_of_no_hit _ _ _ _ _ (by
    show (pointToSegmentDistance ⟨0, 0⟩ ⟨⟨-1, Real.sqrt 3⟩, ⟨-2, 0⟩⟩).distance ≥ 1
    rw [hex3_dist_e2]; exact sqrt_three_ge_one)

lemma hex3_no_hit_e3 :
    collideEdge (17/20) (1/2) ⟨⟨0, 0⟩, 2, 0⟩ ⟨⟨0, 0⟩, ⟨1, 0⟩, 1, 1⟩
      ⟨⟨-2, 0⟩, ⟨-1, -Real.sqrt 3⟩⟩ = ⟨⟨0, 0⟩, ⟨1, 0⟩, 1, 1⟩ :=
  collideEdge_of_no_hit _ _ _ _ _ (by
    show (pointToSegmentDistance ⟨0, 0⟩ ⟨⟨-2, 0⟩, ⟨-1, -Real.sqrt 3⟩⟩).distance ≥ 1
    rw [hex3_dist_e3]; exact sqrt_three_ge_one)

lemma hex3_no_hit_e4 :
    collideEdge (17/20) (1/2) ⟨⟨0, 0⟩, 2, 0⟩ ⟨⟨0, 0⟩, ⟨1, 0⟩, 1, 1⟩
      ⟨⟨-1, -Real.sqrt 3⟩, ⟨1, -Real.sqrt 3⟩⟩ = ⟨⟨0, 0⟩, ⟨1, 0⟩, 1, 1⟩ :=
  collideEdge_of_no_hit _ _ _ _ _ (by
    show (pointToSegmentDistance ⟨0, 0⟩ ⟨⟨-1, -Real.sqrt 3⟩, ⟨1, -Real.sqrt 3⟩⟩).distance ≥ 1
    rw [hex3_dist_e4]; exact sqrt_three_ge_one)

lemma hex3_no_hit_e5 :
    collideEdge (17/20) (1/2) ⟨⟨0, 0⟩, 2, 0⟩ ⟨⟨0, 0⟩, ⟨1, 0⟩, 1, 1⟩
      ⟨⟨1, -Real.sqrt 3⟩, ⟨2, 0⟩⟩ = ⟨⟨0, 0⟩, ⟨1, 0⟩, 1, 1⟩ :=
  collideEdge_of_no_hit _ _ _ _ _ (by
    show (pointToSegmentDistance ⟨0, 0⟩ ⟨⟨1, -Real.sqrt 3⟩, ⟨2, 0⟩⟩).distance ≥ 1
    rw [hex3_dist_e5]; exact sqrt_three_ge_one)

lemma hex3_cross_nonneg (i : ℕ) (hi : i ∈ List.range 6) :
    0 ≤ hexCross ⟨0, 0⟩ ⟨⟨0, 0⟩, 2, 0⟩ i := by
  fin_cases hi <;>
    norm_num [hexCross, hex3_v0, hex3_v1, hex3_v2, hex3_v3, hex3_v4, hex3_v5]

lemma hex3_inside : isPointInHexagon ⟨0, 0⟩ ⟨⟨0, 0⟩, 2, 0⟩ = true := by
  simp only [isPointInHexagon, List.all_eq_true]
  intro i hi
  simp only [Bool.not_eq_true', decide_eq_false_iff_not, not_lt]
  exact hex3_cross_nonneg i hi

lemma hex3_handleCollisions :
    handleCollisions ⟨⟨0, 0⟩, ⟨1, 0⟩, 1, 1⟩ ⟨⟨0, 0⟩, 2, 0⟩ (1/2) (17/20) =
      ⟨⟨0, 0⟩, ⟨1, 0⟩, 1, 1⟩ := by
  simp only [handleCollisions, hex3_edges, List.foldl_cons, List.foldl_nil,
    hex3_no_hit_e0, hex3_no_hit_e1, hex3_no_hit_e2, hex3_no_hit_e3, hex3_no_hit_e4,
    hex3_no_hit_e5]
  rw [if_pos hex3_inside]

lemma hex3_clamp :
    clampMinVelocity ⟨⟨0, 0⟩, ⟨1, 0⟩, 1, 1⟩ 2 = ⟨⟨0, 0⟩, ⟨2, 0⟩, 1, 1⟩ := by
  have hv1 : vectorLength ⟨1, 0⟩ = 1 := by
    simp only [vectorLength]
    norm_num
  simp only [clampMinVelocity, hv1]
  rw [if_pos (by norm_num)]
  simp only [Ball.mk.injEq, Vector2D.mk.injEq]
  norm_num

/-- Claim C3 (corrected), counterexample: running the physics pipeline itself
with `dt = 0` is not the identity.  With the hexagon of radius `2` at the
origin and a ball at the center with velocity `(1,0)` (speed `1`, below
`minVelocity = 2`), rotation, gravity, friction and position updates are
no-ops, no edge collides, the ball is inside, but the minimum-speed clamp
still fires and rescales the velocity to `(2,0)`. -/
theorem stepPipeline_dt_zero_changes_velocity :
    (stepPipeline ⟨⟨0, 0⟩, ⟨1, 0⟩, 1, 1⟩ ⟨⟨0, 0⟩, 2, 0⟩ ⟨500, 1/50, 17/20, 2⟩
        (1/2) 0).1.velocity ≠ (⟨⟨0, 0⟩, ⟨1, 0⟩, 1, 1⟩ : Ball).velocity := by
  have hstep : (stepPipeline ⟨⟨0, 0⟩, ⟨1, 0⟩, 1, 1⟩ ⟨⟨0, 0⟩, 2, 0⟩ ⟨500, 1/50, 17/20, 2⟩
      (1/2) 0).1 = ⟨⟨0, 0⟩, ⟨2, 0⟩, 1, 1⟩ := by
    norm_num [stepPipeline, applyGravity, applyAirFriction, updateBallPosition]
    rw [hex3_handleCollisions, hex3_clamp]
  rw [hstep]
  simp only [ne_eq, Vector2D.mk.injEq]
  norm_num

/-- Claim C3 (amended): the game loop runs the physics pipeline only under its
`deltaTime > 0` guard, so an invocation with `dt = 0` leaves the ball
(position and velocity) and the hexagon rotation exactly unchanged; the bare
pipeline at `dt = 0` would still run collision handling and the minimum-speed
clamp, which can change the ball. -/
theorem gameStep_dt_zero_id (ball : Ball) (hexagon : Hexagon) (params : PhysicsParams)
    (rotationSpeed : ℝ) :
    gameStep ball hexagon params rotationSpeed 0 = (ball, hexagon) := by
  simp only [gameStep]
  rw [if_neg (lt_irrefl 0)]
